import Mathlib

/-!
Verification of the SOHO credentials-provider / payment-processor sample
(AP2 repository): a shallow embedding of the account manager, the credential
token store, the BNPL quote handler and the settlement handler, together with
theorems settling the specification's claims about them.

Python dictionaries become association lists, Python `None` becomes `Option`,
raised `ValueError`s become `Except.error`, and monetary floats become exact
rationals with explicit 2-decimal rounding (Python `round`, half-to-even).
-/

deriving instance DecidableEq for Except

namespace AP2

/-- A SOHO Credit payment method, as stored under an account's
`payment_methods` map in `account_manager.py`.  The source field `alias` is
called `methodAlias` here because `alias` is a reserved word in Lean. -/
structure PaymentMethod where
  type : String
  methodAlias : String
  plan_id : String
  deriving Repr, DecidableEq

/-- An account's `credit_profile` record. -/
structure CreditProfile where
  credit_limit : ℚ
  available_credit : ℚ
  outstanding_debt : ℚ
  credit_score : ℕ
  deriving Repr, DecidableEq

/-- A SOHO account record (`_soho_account_db` entry).  Shipping address and
contact fields are omitted: no claim touches them. -/
structure Account where
  user_id : String
  borrower_address : String
  credit_profile : CreditProfile
  payment_methods : List (String × PaymentMethod)
  deriving Repr, DecidableEq

/-- The account database `_soho_account_db`: an association list keyed by
email address. -/
abbrev AccountDb := List (String × Account)

/-- `dict.get` on an association list. -/
def assocGet {α : Type} (db : List (String × α)) (key : String) : Option α :=
  (db.find? (fun kv => kv.1 = key)).map (fun kv => kv.2)

/-- `account_manager.get_account`. -/
def get_account (db : AccountDb) (email_address : String) : Option Account :=
  assocGet db email_address

/-- `account_manager.get_account_payment_methods`: raises `ValueError` when
the account is absent, otherwise lists the account's payment methods. -/
def get_account_payment_methods (db : AccountDb) (email_address : String) :
    Except String (List PaymentMethod) :=
  match get_account db email_address with
  | none => .error ("Account not found: " ++ email_address)
  | some account => .ok (account.payment_methods.map (fun kv => kv.2))

/-- ASCII lower-casing of one character (`str.casefold` restricted to the
ASCII alphabet, which is all the source's aliases use). -/
def lowerChar (c : Char) : Char :=
  if 65 ≤ c.toNat ∧ c.toNat ≤ 90 then Char.ofNat (c.toNat + 32) else c

/-- `str.casefold` on ASCII strings. -/
def caseFold (s : String) : String :=
  String.mk (s.data.map lowerChar)

/-- `account_manager.get_payment_method_by_alias`: case-insensitive alias
lookup (`str.casefold`) over the account's payment methods. -/
def get_payment_method_by_alias (db : AccountDb) (email_address : String)
    (anAlias : String) : Except String (Option PaymentMethod) :=
  match get_account_payment_methods db email_address with
  | .error e => .error e
  | .ok methods =>
      .ok (methods.find? (fun m => caseFold m.methodAlias = caseFold anAlias))

/-- A `_token_db` entry: the record stored by `create_token`.  The
`payment_mandate_id` field starts out as Python `None`. -/
structure TokenRecord where
  email_address : String
  payment_method_alias : String
  payment_mandate_id : Option String
  deriving Repr, DecidableEq

/-- The token database `_token_db`. -/
abbrev TokenDb := List (String × TokenRecord)

/-- `account_manager.create_token`: mints `soho_token_{len}_{email}` and
stores a record with no mandate binding; returns the token and the new
store. -/
def create_token (tdb : TokenDb) (email_address : String)
    (payment_method_alias : String) : String × TokenDb :=
  let token := "soho_token_" ++ toString tdb.length ++ "_" ++ email_address
  (token, tdb ++ [(token, ⟨email_address, payment_method_alias, none⟩)])

/-- Python truthiness of the `payment_mandate_id` field: `None` and the
empty string are falsy. -/
def mandateIdTruthy : Option String → Bool
  | none => false
  | some s => s ≠ ""

/-- Overwrite the record stored under `token`. -/
def setTokenRecord (tdb : TokenDb) (token : String) (r : TokenRecord) :
    TokenDb :=
  tdb.map (fun kv => if kv.1 = token then (token, r) else kv)

/-- `account_manager.update_token`: raises when the token is unknown;
returns without writing when the stored `payment_mandate_id` is truthy;
otherwise writes the supplied mandate id. -/
def update_token (tdb : TokenDb) (token : String)
    (payment_mandate_id : String) : Except String TokenDb :=
  match assocGet tdb token with
  | none => .error ("Token " ++ token ++ " not found")
  | some r =>
      if mandateIdTruthy r.payment_mandate_id then .ok tdb
      else .ok (setTokenRecord tdb token
          { r with payment_mandate_id := some payment_mandate_id })

/-- `account_manager.verify_token`: raises `"Invalid token"` when the token
is unknown or the stored mandate id differs from the presented one, and
otherwise resolves the owning account's payment method by alias. -/
def verify_token (db : AccountDb) (tdb : TokenDb) (token : String)
    (payment_mandate_id : String) : Except String (Option PaymentMethod) :=
  match assocGet tdb token with
  | none => .error "Invalid token"
  | some r =>
      if r.payment_mandate_id ≠ some payment_mandate_id then
        .error "Invalid token"
      else
        get_payment_method_by_alias db r.email_address r.payment_method_alias

/-- Python `round` to an integer: round half to even (banker's rounding),
expressed on exact rationals.  Below the midpoint round down, above it round
up, and on a tie pick the even neighbour. -/
def roundHalfEven (q : ℚ) : ℤ :=
  if q - (⌊q⌋ : ℚ) < 1 / 2 then ⌊q⌋
  else if 1 / 2 < q - (⌊q⌋ : ℚ) then ⌊q⌋ + 1
  else if ⌊q⌋ % 2 = 0 then ⌊q⌋ else ⌊q⌋ + 1

/-- Python `round(x, 2)` on exact rationals. -/
def round2 (q : ℚ) : ℚ :=
  (roundHalfEven (100 * q) : ℚ) / 100

lemma roundHalfEven_eq_down {q : ℚ} {k : ℤ} (h : (k : ℚ) ≤ q)
    (h' : q < (k : ℚ) + 1 / 2) : roundHalfEven q = k := by
  have hf : ⌊q⌋ = k := by
    rw [Int.floor_eq_iff]
    exact ⟨h, by linarith⟩
  rw [roundHalfEven, hf, if_pos (by linarith)]

lemma roundHalfEven_eq_up {q : ℚ} {k : ℤ} (h : (k : ℚ) + 1 / 2 < q)
    (h' : q ≤ (k : ℚ) + 1) : roundHalfEven q = k + 1 := by
  rcases eq_or_lt_of_le h' with he | hl
  · have hc : ((k : ℚ) + 1) = ((k + 1 : ℤ) : ℚ) := by push_cast; ring
    have hf : ⌊q⌋ = k + 1 := by
      rw [he, hc, Int.floor_intCast]
    rw [roundHalfEven, hf, if_pos (by rw [he, hc]; simp)]
  · have hf : ⌊q⌋ = k := by
      rw [Int.floor_eq_iff]
      constructor
      · linarith
      · linarith
    rw [roundHalfEven, hf, if_neg (by linarith), if_pos (by linarith)]

/-- Half-to-even rounding moves a rational by at most one half. -/
lemma abs_roundHalfEven_sub_le (q : ℚ) :
    |(roundHalfEven q : ℚ) - q| ≤ 1 / 2 := by
  have h0 : (⌊q⌋ : ℚ) ≤ q := Int.floor_le q
  have h1 : q < (⌊q⌋ : ℚ) + 1 := Int.lt_floor_add_one q
  rw [roundHalfEven]
  split_ifs with ha hb hc <;>
    (rw [abs_le]; constructor <;> push_cast <;> linarith)

/-- One BNPL plan option of the quote built by `handle_get_bnpl_quote`.
Due dates are days relative to an epoch; the source renders them as
`%Y-%m-%d` strings, which the embedding leaves as day numbers. -/
structure PlanOption where
  plan_id : String
  name : String
  installments : ℕ
  amount_per_installment : ℚ
  interest_rate : String
  total_amount : ℚ
  due_dates : List ℤ
  deriving Repr, DecidableEq

/-- The `limits_check` sub-record of an approved quote. -/
structure LimitsCheck where
  per_transaction_limit : ℚ
  per_day_remaining : ℚ
  per_month_remaining : ℚ
  deriving Repr, DecidableEq

/-- The `bnpl_quote` dictionary built by `handle_get_bnpl_quote`.  Keys
present only in one branch of the handler become `Option` fields; the
declined branch carries no `bnpl_options` key, embedded as `[]`. -/
structure BnplQuote where
  validation_status : String
  reason : Option String
  available_credit : ℚ
  requested_amount : Option ℚ
  transaction_amount : Option ℚ
  bnpl_options : List PlanOption
  credit_authorization_token : Option String
  limits_check : Option LimitsCheck
  deriving Repr, DecidableEq

/-- Python truthiness of an optional string (used for `user_email`). -/
def strTruthy : Option String → Bool
  | none => false
  | some s => s ≠ ""

/-- The `bnpl_quote` dictionary of the insufficient-credit branch of
`handle_get_bnpl_quote` (`c` is the account's available credit). -/
def declinedQuote (c x : ℚ) : BnplQuote :=
  { validation_status := "declined"
    reason := some "insufficient_credit"
    available_credit := c
    requested_amount := some x
    transaction_amount := none
    bnpl_options := []
    credit_authorization_token := none
    limits_check := none }

/-- The `bnpl_quote` dictionary of the approved branch of
`handle_get_bnpl_quote`: the three plan options in source order, the fresh
authorization token and the limits check. -/
def approvedQuote (a : Account) (x : ℚ) (d : ℤ) (s : String) : BnplQuote :=
  { validation_status := "approved"
    reason := none
    available_credit := a.credit_profile.available_credit
    requested_amount := none
    transaction_amount := some x
    bnpl_options :=
      [ { plan_id := "pay_in_full"
          name := "Pay in Full"
          installments := 1
          amount_per_installment := round2 x
          interest_rate := "0.00%"
          total_amount := round2 x
          due_dates := [d + 30] },
        { plan_id := "pay_in_4"
          name := "Pay in 4"
          installments := 4
          amount_per_installment := round2 (x / 4)
          interest_rate := "0.00%"
          total_amount := round2 (x / 4) * 4
          due_dates := [d, d + 14, d + 28, d + 42] },
        { plan_id := "pay_in_12"
          name := "12 Month Plan"
          installments := 12
          amount_per_installment := round2 (x * (10599 / 10000) / 12)
          interest_rate := "5.99%"
          total_amount := round2 (x * (10599 / 10000))
          due_dates :=
            (List.range 12).map (fun i => d + 30 * ((i : ℤ) + 1)) } ]
    credit_authorization_token :=
      some ("soho_auth_" ++ a.user_id ++ "_" ++ s)
    limits_check :=
      some { per_transaction_limit := 1000
             per_day_remaining := 2000 - x
             per_month_remaining := 5000 - x } }

/-- `tools.handle_get_bnpl_quote`, as a function of the account database,
the looked-up `user_email` and `amount` data parts, the current date
(`datetime.now()`, as a day number) and its timestamp rendering (used only
inside the `credit_authorization_token` string).  A raised `ValueError`
becomes `.error`; the artifact added before completing becomes `.ok`. -/
def handle_get_bnpl_quote (db : AccountDb) (user_email : Option String)
    (amount : Option ℚ) (current_date : ℤ) (timestamp : String) :
    Except String BnplQuote :=
  if strTruthy user_email = false ∨ amount = none then
    .error "user_email and amount are required for get_bnpl_quote"
  else
    let email := user_email.getD ""
    let amt := amount.getD 0
    match get_account db email with
    | none => .error ("User not found: " ++ email)
    | some account =>
        if amt > account.credit_profile.available_credit then
          .ok (declinedQuote account.credit_profile.available_credit amt)
        else
          .ok (approvedQuote account amt current_date timestamp)

/-- The concrete `_soho_account_db` seeded in `account_manager.py`
(shipping-address and contact fields omitted). -/
def sohoAccountDb : AccountDb :=
  [ ("user@example.com",
     { user_id := "user_123"
       borrower_address := "0x742d35Cc6634C0532925a3b844Bc9e7595f0bEb"
       credit_profile :=
         { credit_limit := 5000
           available_credit := 413942 / 100
           outstanding_debt := 86058 / 100
           credit_score := 750 }
       payment_methods :=
         [ ("soho_pay_in_full",
            { type := "SOHO_CREDIT"
              methodAlias := "SOHO Credit - Pay in Full"
              plan_id := "pay_in_full" }),
           ("soho_pay_in_4",
            { type := "SOHO_CREDIT"
              methodAlias := "SOHO Credit - Pay in 4"
              plan_id := "pay_in_4" }),
           ("soho_pay_in_12",
            { type := "SOHO_CREDIT"
              methodAlias := "SOHO Credit - 12 Month Plan"
              plan_id := "pay_in_12" }) ] }),
    ("bugsbunny@gmail.com",
     { user_id := "user_bugs"
       borrower_address := "0x1234567890abcdef1234567890abcdef12345678"
       credit_profile :=
         { credit_limit := 3000
           available_credit := 2500
           outstanding_debt := 500
           credit_score := 720 }
       payment_methods :=
         [ ("soho_pay_in_full",
            { type := "SOHO_CREDIT"
              methodAlias := "SOHO Credit - Pay in Full"
              plan_id := "pay_in_full" }),
           ("soho_pay_in_4",
            { type := "SOHO_CREDIT"
              methodAlias := "SOHO Credit - Pay in 4"
              plan_id := "pay_in_4" }) ] }) ]

/-- A Python exception raised by the `httpx` calls inside
`handle_payment_receipt`: `httpx.ConnectError`, `httpx.RequestError`, or any
other `Exception`. -/
inductive PyExn where
  | connectError (m : String)
  | requestError (m : String)
  | otherError (m : String)
  deriving Repr, DecidableEq

/-- Outcome of the `/api/v1/auth/login` POST: either a response with a
status code, the `accessToken` extracted from its JSON body (absent when the
nested lookup yields nothing) and its text, or a raised exception. -/
inductive LoginOutcome where
  | resp (status : ℤ) (accessToken : Option String) (text : String)
  | raised (e : PyExn)
  deriving Repr, DecidableEq

/-- Outcome of the `/api/v1/agent/pay` POST: either a response with a status
code, text, and the optional transaction fields read from its JSON body, or
a raised exception. -/
inductive PayOutcome where
  | resp (status : ℤ) (text : String) (transactionHash : Option String)
      (transactionId : Option String) (blockNumber : Option String)
      (gasUsed : Option String) (amountFormatted : Option String)
  | raised (e : PyExn)
  deriving Repr, DecidableEq

/-- The external settlement API, as the handler observes it: what each of
the two POSTs would produce if issued. -/
structure HttpWorld where
  login : LoginOutcome
  pay : PayOutcome
  deriving Repr, DecidableEq

/-- The `amount` field of a payment receipt: a dict holding an optional
`value`, or directly a number (the handler's `isinstance` fallback). -/
inductive AmountField where
  | dictVal (value : Option ℚ)
  | numVal (v : ℚ)
  deriving Repr, DecidableEq

/-- The payment-receipt data part; `amount` is `none` when the key is
absent (`.get("amount", {})`). -/
structure PaymentReceiptData where
  amount : Option AmountField
  deriving Repr, DecidableEq

/-- `float(amount_data.get("value", 0))` respectively `float(amount_data)`. -/
def receiptAmount (r : PaymentReceiptData) : ℚ :=
  match r.amount with
  | none => 0
  | some (.dictVal v) => v.getD 0
  | some (.numVal v) => v

/-- Python `int()` truncation toward zero on a rational. -/
def truncInt (q : ℚ) : ℤ :=
  if 0 ≤ q then ⌊q⌋ else -⌊-q⌋

/-- An artifact added by `handle_payment_receipt`: either the
`{"error": ..., "status": "failed"}` DataPart or the `{"status": "success",
...}` DataPart. -/
inductive SettlementArtifact where
  | failed (error : String)
  | success (transaction_hash : Option String) (transaction_id : Option String)
      (block_number : Option String) (gas_used : Option String)
      (amount_formatted : Option String) (amount_usd : ℚ) (amount_wei : ℤ)
      (merchant : String) (payment_plan_id : String)
  deriving Repr, DecidableEq

/-- What one invocation of the settlement handler did: the artifacts it
added, how many times it signalled completion, and how many external HTTP
calls it issued. -/
structure SettlementRun where
  artifacts : List SettlementArtifact
  completions : ℕ
  http_calls : ℕ
  deriving Repr, DecidableEq

/-- The handler's `except` clauses, in source order: `httpx.ConnectError`,
then `httpx.RequestError`, then `Exception`.  Returns the error message the
matching clause builds, or `none` if no clause matches (the exception would
propagate). -/
def exceptClauseMessage (base : String) : PyExn → Option String
  | .connectError m =>
      some ("Failed to connect to SOHO API at " ++ base ++
        ". Is the SOHO API server running? Error: " ++ m)
  | .requestError m => some ("API request failed: RequestError - " ++ m)
  | .otherError m => some ("Unexpected error during payment: " ++ m)

/-- The hardcoded merchant address in `handle_payment_receipt`. -/
def merchantAddress : String := "0x029241b72abab1b29fecdd1c609920bb8706e7b2"

/-- Leave the `try` block through a raised exception: a matching `except`
clause adds an error artifact and falls through to the final
`updater.complete()`; an unmatched exception would propagate raw. -/
def settleExcept (base : String) (e : PyExn) (calls : ℕ) :
    Except PyExn SettlementRun :=
  match exceptClauseMessage base e with
  | some msg => .ok { artifacts := [.failed msg], completions := 1,
                      http_calls := calls }
  | none => .error e

/-- `tools.handle_payment_receipt`, as a function of the looked-up
payment-receipt data part and of the external API's behaviour.  `.error`
would mean a raw exception escaping the handler; `.ok` carries the
artifacts, completion signals and HTTP calls of the run. -/
def handle_payment_receipt (receipt : Option PaymentReceiptData)
    (w : HttpWorld) (base : String) : Except PyExn SettlementRun :=
  match receipt with
  | none => .ok { artifacts := [], completions := 1, http_calls := 0 }
  | some r =>
      let amount_usd := receiptAmount r
      if 100 ≤ amount_usd then
        .ok { artifacts := [.failed ("Payment amount $" ++ toString amount_usd
                ++ " exceeds $100 limit for mock API")]
              completions := 1
              http_calls := 0 }
      else
        let amount_wei := truncInt (amount_usd * 1000000)
        match w.login with
        | .raised e => settleExcept base e 1
        | .resp s tok text =>
            if s ≠ 200 then
              .ok { artifacts := [.failed ("Login failed: " ++ toString s
                      ++ " - " ++ text)]
                    completions := 1
                    http_calls := 1 }
            else match tok with
            | none =>
                .ok { artifacts := [.failed "No access token in login response"]
                      completions := 1
                      http_calls := 1 }
            | some _ =>
                match w.pay with
                | .raised e => settleExcept base e 2
                | .resp s2 text2 th ti bn gu af =>
                    if s2 ≠ 200 ∧ s2 ≠ 201 then
                      .ok { artifacts := [.failed ("Payment failed: "
                              ++ toString s2 ++ " - " ++ text2)]
                            completions := 1
                            http_calls := 2 }
                    else
                      .ok { artifacts := [.success th ti bn gu af amount_usd
                              amount_wei merchantAddress "0"]
                            completions := 1
                            http_calls := 2 }

/-- Modelled from the spec: one part of a credentials-provider response
artifact — either a structured data payload or something else.  The
payment-processor module holding `initiate_payment` is absent from the
source tree (only its tests are present), so §4.4 of the spec is the
authority. -/
inductive RespPart where
  | dataPart (payload : String)
  | textPart (t : String)
  deriving Repr, DecidableEq

/-- Modelled from the spec: an artifact of a credentials-provider
response. -/
structure RespArtifact where
  parts : List RespPart
  deriving Repr, DecidableEq

/-- Modelled from the spec: `artifact_utils.get_first_data_part` — the
first structured data payload in the response's artifact list, if any. -/
def get_first_data_part (artifacts : Option (List RespArtifact)) :
    Option String :=
  match artifacts with
  | none => none
  | some arts =>
      ((arts.map (fun a => a.parts)).flatten).findSome? fun p =>
        match p with
        | .dataPart d => some d
        | .textPart _ => none

/-- Modelled from the spec: the terminal signal of one mandate-completion
attempt (§4.4): failure with a reason, a suspend point requiring caller
input, or completion carrying the retrieved credential. -/
inductive CompletionOutcome where
  | failed (reason : String)
  | requiresInput (challenge : String)
  | completed (credential : String)
  deriving Repr, DecidableEq

/-- Modelled from the spec: the part of the payment mandate the state
machine reads — the chosen payment-method name. -/
structure MandateInfo where
  method_name : String
  deriving Repr, DecidableEq

/-- Modelled from the spec: the `AwaitingCredential`/`Completed`/`Failed`
portion of the state machine — extract the first structured payload from
the provider response, failing with the fixed domain error when there is
none. -/
def completePayment (providerArtifacts : Option (List RespArtifact)) :
    CompletionOutcome :=
  match get_first_data_part providerArtifacts with
  | none => .failed "failed to find the payment method data"
  | some cred => .completed cred

/-- Modelled from the spec: `initiate_payment`, the Mandate Completion
State Machine of §4.4 (the payment-processor `tools.py` module is absent
from the source tree; its tests drive this shape).  Card-style methods go
through the challenge; token/credit-style methods bypass it. -/
def initiate_payment (mandate : Option MandateInfo) (hasPriorTask : Bool)
    (challengeResponse : Option String) (expected : String)
    (providerArtifacts : Option (List RespArtifact)) : CompletionOutcome :=
  match mandate with
  | none => .failed "missing mandate"
  | some m =>
      if m.method_name = "CARD" then
        if hasPriorTask = false then .requiresInput "challenge required"
        else
          match challengeResponse with
          | some c =>
              if c = expected then completePayment providerArtifacts
              else .requiresInput "challenge required"
          | none => .requiresInput "challenge required"
      else completePayment providerArtifacts

/-- Replacing the record under `t` is what a lookup of `t` afterwards
sees; other keys are untouched by `setTokenRecord`. -/
lemma assocGet_setTokenRecord (tdb : TokenDb) (t : String) (r : TokenRecord) :
    assocGet (setTokenRecord tdb t r) t =
      (assocGet tdb t).map (fun _ => r) := by
  induction tdb with
  | nil => rfl
  | cons kv rest ih =>
      by_cases h : kv.1 = t
      · simp [setTokenRecord, assocGet, List.find?, h]
      · simp only [setTokenRecord, assocGet, List.map_cons] at ih ⊢
        rw [if_neg h]
        rw [List.find?_cons_of_neg _ (by simpa using h),
          List.find?_cons_of_neg _ (by simpa using h)]
        exact ih

/-- A successful `verify_token` requires the stored binding to equal the
presented mandate id exactly. -/
lemma verify_token_ok_binding {db : AccountDb} {tdb : TokenDb}
    {t m : String} {o : Option PaymentMethod}
    (h : verify_token db tdb t m = .ok o) :
    ∃ r, assocGet tdb t = some r ∧ r.payment_mandate_id = some m := by
  cases hl : assocGet tdb t with
  | none => exfalso; revert h; simp [verify_token, hl]
  | some r =>
      by_cases hb : r.payment_mandate_id = some m
      · exact ⟨r, rfl, hb⟩
      · exfalso; revert h; simp [verify_token, hl, hb]

/-- A concrete token store used to instantiate the token-store theorems:
`tok0` is bound to mandate id `m1`, `tok1` is still unbound. -/
def demoTokenDb : TokenDb :=
  [ ("tok0", { email_address := "user@example.com"
               payment_method_alias := "SOHO Credit - Pay in 4"
               payment_mandate_id := some "m1" }),
    ("tok1", { email_address := "user@example.com"
               payment_method_alias := "SOHO Credit - Pay in Full"
               payment_mandate_id := none }) ]

/-- A concrete token store whose only token carries an empty-string
mandate binding, reachable by `update_token tok ""` on a fresh token. -/
def emptyBindTokenDb : TokenDb :=
  [ ("tok0", { email_address := "user@example.com"
               payment_method_alias := "SOHO Credit - Pay in 4"
               payment_mandate_id := some "" }) ]

/-- C2: `verify_token` fails with the invalid-credential error when the
token is unknown, when no mandate id is bound, or when the bound id differs
from the presented one; it succeeds only when the presented mandate id
equals the bound one exactly, and then returns the owning account's full
payment-method record resolved by alias. -/
theorem verify_token_spec (db : AccountDb) (tdb : TokenDb) (t m : String) :
    (assocGet tdb t = none → verify_token db tdb t m = .error "Invalid token")
    ∧ (∀ r, assocGet tdb t = some r → r.payment_mandate_id = none →
        verify_token db tdb t m = .error "Invalid token")
    ∧ (∀ r u, assocGet tdb t = some r → r.payment_mandate_id = some u →
        u ≠ m → verify_token db tdb t m = .error "Invalid token")
    ∧ (∀ r, assocGet tdb t = some r → r.payment_mandate_id = some m →
        verify_token db tdb t m =
          get_payment_method_by_alias db r.email_address
            r.payment_method_alias)
    ∧ (∀ o, verify_token db tdb t m = .ok o →
        ∃ r, assocGet tdb t = some r ∧ r.payment_mandate_id = some m)
    ∧ (∀ r a p, assocGet tdb t = some r → r.payment_mandate_id = some m →
        get_account db r.email_address = some a →
        (a.payment_methods.map (fun kv => kv.2)).find?
            (fun pm => caseFold pm.methodAlias =
              caseFold r.payment_method_alias) = some p →
        verify_token db tdb t m = .ok (some p)) := by
  refine ⟨?_, ?_, ?_, ?_, fun o h => verify_token_ok_binding h, ?_⟩
  · intro h; simp [verify_token, h]
  · intro r h hb; simp [verify_token, h, hb]
  · intro r u h hb hne; simp [verify_token, h, hb, hne]
  · intro r h hb; simp [verify_token, h, hb]
  · intro r a p h hb ha hp
    simp [verify_token, h, hb, get_payment_method_by_alias,
      get_account_payment_methods, ha, hp]

/-- Closed instantiation of the `verify_token` theorem on the seeded
account database and a demo token store. -/
theorem verify_token_spec_witness :
    verify_token sohoAccountDb demoTokenDb "missing" "m1" =
        .error "Invalid token"
    ∧ verify_token sohoAccountDb demoTokenDb "tok1" "m1" =
        .error "Invalid token"
    ∧ verify_token sohoAccountDb demoTokenDb "tok0" "m2" =
        .error "Invalid token"
    ∧ verify_token sohoAccountDb demoTokenDb "tok0" "m1" =
        .ok (some { type := "SOHO_CREDIT"
                    methodAlias := "SOHO Credit - Pay in 4"
                    plan_id := "pay_in_4" }) := by
  refine ⟨?_, ?_, ?_, ?_⟩
  · exact (verify_token_spec sohoAccountDb demoTokenDb "missing" "m1").1 rfl
  · exact (verify_token_spec sohoAccountDb demoTokenDb "tok1" "m1").2.1
      _ rfl rfl
  · exact (verify_token_spec sohoAccountDb demoTokenDb "tok0" "m2").2.2.1
      _ "m1" rfl rfl (by decide)
  · exact (verify_token_spec sohoAccountDb demoTokenDb "tok0"
      "m1").2.2.2.2.2 _ _ _ rfl rfl rfl (by decide)

/-- C3 counterexample: a token whose bound mandate id is the empty string
is silently rebound — the second bind is not a no-op, so the claim's
universal first-bind-wins statement fails on this store. -/
theorem update_token_rebind_counterexample :
    (assocGet emptyBindTokenDb "tok0").map
        (fun r => r.payment_mandate_id) = some (some "")
    ∧ update_token emptyBindTokenDb "tok0" "m2" ≠ .ok emptyBindTokenDb
    ∧ update_token emptyBindTokenDb "tok0" "m2" =
        .ok [ ("tok0", { email_address := "user@example.com"
                         payment_method_alias := "SOHO Credit - Pay in 4"
                         payment_mandate_id := some "m2" }) ] := by
  refine ⟨rfl, ?_, rfl⟩
  intro h
  rw [show update_token emptyBindTokenDb "tok0" "m2" =
      .ok [ ("tok0", { email_address := "user@example.com"
                       payment_method_alias := "SOHO Credit - Pay in 4"
                       payment_mandate_id := some "m2" }) ] from rfl] at h
  simp [emptyBindTokenDb] at h

/-- C3 as amended: `update_token` fails with the not-found error for
unknown tokens, and a second bind is a silent no-op leaving the store
unchanged whenever the already-bound mandate id is non-empty (an
empty-string binding is instead overwritten); verification against the
unchanged store accepts only the first bound id. -/
theorem update_token_spec (tdb : TokenDb) (t m : String) :
    (assocGet tdb t = none →
      update_token tdb t m = .error ("Token " ++ t ++ " not found"))
    ∧ (∀ r u, assocGet tdb t = some r → r.payment_mandate_id = some u →
        u ≠ "" → update_token tdb t m = .ok tdb)
    ∧ (∀ db r u v o, assocGet tdb t = some r →
        r.payment_mandate_id = some u → u ≠ "" →
        verify_token db tdb t v = .ok o → v = u) := by
  refine ⟨?_, ?_, ?_⟩
  · intro h; simp [update_token, h]
  · intro r u h hb hne
    simp [update_token, h, hb, mandateIdTruthy, hne]
  · intro db r u v o h hb hne hv
    obtain ⟨r', hr', hb'⟩ := verify_token_ok_binding hv
    rw [h] at hr'
    cases hr'
    rw [hb] at hb'
    cases hb'
    rfl

/-- Closed instantiation of the amended bind theorem: unknown tokens fail,
a non-empty binding survives a second bind unchanged, and verification
still accepts only the first id. -/
theorem update_token_spec_witness :
    update_token demoTokenDb "missing" "m9" =
        .error ("Token " ++ "missing" ++ " not found")
    ∧ update_token demoTokenDb "tok0" "m9" = .ok demoTokenDb
    ∧ (∀ o, verify_token sohoAccountDb demoTokenDb "tok0" "m9" = .ok o →
        ("m9" : String) = "m1") := by
  refine ⟨?_, ?_, ?_⟩
  · exact (update_token_spec demoTokenDb "missing" "m9").1 rfl
  · exact (update_token_spec demoTokenDb "tok0" "m9").2.1 _ "m1" rfl rfl
      (by decide)
  · intro o h
    exact (update_token_spec demoTokenDb "tok0" "m9").2.2 sohoAccountDb
      _ "m1" "m9" o rfl rfl (by decide) h

/-- C9: the first-bind-wins guard keys on Python truthiness — an
empty-string binding is overwritten by a later bind, and only a non-empty
binding makes the second bind a no-op. -/
theorem update_token_truthiness (tdb : TokenDb) (t m : String) :
    (∀ r, assocGet tdb t = some r → r.payment_mandate_id = some "" →
      update_token tdb t m =
          .ok (setTokenRecord tdb t { r with payment_mandate_id := some m })
        ∧ assocGet (setTokenRecord tdb t
            { r with payment_mandate_id := some m }) t =
          some { r with payment_mandate_id := some m })
    ∧ (∀ r u, assocGet tdb t = some r → r.payment_mandate_id = some u →
        u ≠ "" → update_token tdb t m = .ok tdb) := by
  refine ⟨?_, ?_⟩
  · intro r h hb
    constructor
    · simp [update_token, h, hb, mandateIdTruthy]
    · rw [assocGet_setTokenRecord, h]; rfl
  · intro r u h hb hne
    simp [update_token, h, hb, mandateIdTruthy, hne]

/-- Closed instantiation of the truthiness theorem: the empty-string
binding of `emptyBindTokenDb` is overwritten, while `demoTokenDb`'s
non-empty binding is kept. -/
theorem update_token_truthiness_witness :
    (update_token emptyBindTokenDb "tok0" "m2" =
        .ok (setTokenRecord emptyBindTokenDb "tok0"
          { email_address := "user@example.com"
            payment_method_alias := "SOHO Credit - Pay in 4"
            payment_mandate_id := some "m2" })
      ∧ assocGet (setTokenRecord emptyBindTokenDb "tok0"
          { email_address := "user@example.com"
            payment_method_alias := "SOHO Credit - Pay in 4"
            payment_mandate_id := some "m2" }) "tok0" =
        some { email_address := "user@example.com"
               payment_method_alias := "SOHO Credit - Pay in 4"
               payment_mandate_id := some "m2" })
    ∧ update_token demoTokenDb "tok0" "m2" = .ok demoTokenDb := by
  refine ⟨?_, ?_⟩
  · exact (update_token_truthiness emptyBindTokenDb "tok0" "m2").1 _ rfl rfl
  · exact (update_token_truthiness demoTokenDb "tok0" "m2").2 _ "m1" rfl rfl
      (by decide)

/-- The plan options carried by a quote handler result (empty on a raised
error). -/
def bnplOptionsOf : Except String BnplQuote → List PlanOption
  | .ok q => q.bnpl_options
  | .error _ => []

/-- With a truthy email, a present amount and an existing account, the
handler reaches the credit check; insufficient credit yields the declined
quote. -/
lemma bnpl_eval_declined {db : AccountDb} {e : String} {a : Account}
    {x : ℚ} (d : ℤ) (s : String) (n : e ≠ "")
    (g : get_account db e = some a)
    (l : a.credit_profile.available_credit < x) :
    handle_get_bnpl_quote db (some e) (some x) d s =
      .ok (declinedQuote a.credit_profile.available_credit x) := by
  rw [handle_get_bnpl_quote, if_neg (by simp [strTruthy, n])]
  simp only [Option.getD_some]
  rw [g]
  simp only [if_pos l]

/-- With sufficient credit the handler emits the approved quote. -/
lemma bnpl_eval_approved {db : AccountDb} {e : String} {a : Account}
    {x : ℚ} (d : ℤ) (s : String) (n : e ≠ "")
    (g : get_account db e = some a)
    (l : x ≤ a.credit_profile.available_credit) :
    handle_get_bnpl_quote db (some e) (some x) d s =
      .ok (approvedQuote a x d s) := by
  rw [handle_get_bnpl_quote, if_neg (by simp [strTruthy, n])]
  simp only [Option.getD_some]
  rw [g]
  simp only [if_neg (not_lt.2 l)]

/-- C4: when the requested amount exceeds the account's available credit
the handler returns — as an artifact, not an error — a quote with
validation status `declined`, reason `insufficient_credit`, and zero plan
options. -/
theorem bnpl_quote_insufficient_credit (db : AccountDb) (e : String)
    (a : Account) (x : ℚ) (d : ℤ) (s : String) (n : e ≠ "")
    (g : get_account db e = some a)
    (l : a.credit_profile.available_credit < x) :
    ∃ q, handle_get_bnpl_quote db (some e) (some x) d s = .ok q
      ∧ q.validation_status = "declined"
      ∧ q.reason = some "insufficient_credit"
      ∧ q.bnpl_options = [] :=
  ⟨_, bnpl_eval_declined d s n g l, rfl, rfl, rfl⟩

/-- Closed instantiation of the declined-quote theorem on the seeded
account database: 5000 exceeds the 4139.42 available credit. -/
theorem bnpl_quote_insufficient_credit_witness :
    ∃ q, handle_get_bnpl_quote sohoAccountDb (some "user@example.com")
        (some 5000) 0 "ts" = .ok q
      ∧ q.validation_status = "declined"
      ∧ q.reason = some "insufficient_credit"
      ∧ q.bnpl_options = [] :=
  bnpl_quote_insufficient_credit sohoAccountDb "user@example.com" _ 5000 0
    "ts" (by decide) rfl (by norm_num [sohoAccountDb])

/-- C5: an approved quote has exactly three plan options in the fixed
order pay-in-full, pay-in-4, pay-in-12 with installment counts 1, 4, 12;
pay-in-full is due once 30 days out; pay-in-4 is due on the current date
and +14, +28, +42 days; and the pay-in-4 total is the rounded
per-installment amount times 4. -/
theorem bnpl_quote_approved_plans (db : AccountDb) (e : String)
    (a : Account) (x : ℚ) (d : ℤ) (s : String) (n : e ≠ "")
    (g : get_account db e = some a)
    (l : x ≤ a.credit_profile.available_credit) :
    ∃ q p1 p2 p3,
      handle_get_bnpl_quote db (some e) (some x) d s = .ok q
      ∧ q.validation_status = "approved"
      ∧ q.bnpl_options = [p1, p2, p3]
      ∧ p1.plan_id = "pay_in_full" ∧ p1.installments = 1
      ∧ p1.due_dates = [d + 30]
      ∧ p2.plan_id = "pay_in_4" ∧ p2.installments = 4
      ∧ p2.due_dates = [d, d + 14, d + 28, d + 42]
      ∧ p2.amount_per_installment = round2 (x / 4)
      ∧ p2.total_amount = round2 (x / 4) * 4
      ∧ p3.plan_id = "pay_in_12" ∧ p3.installments = 12 :=
  ⟨_, _, _, _, bnpl_eval_approved d s n g l, rfl, rfl, rfl, rfl, rfl, rfl,
    rfl, rfl, rfl, rfl, rfl, rfl⟩

/-- Closed instantiation of the approved-quote theorem: a 10-unit request
against the seeded account. -/
theorem bnpl_quote_approved_plans_witness :
    ∃ q p1 p2 p3,
      handle_get_bnpl_quote sohoAccountDb (some "user@example.com")
          (some 10) 0 "ts" = .ok q
      ∧ q.validation_status = "approved"
      ∧ q.bnpl_options = [p1, p2, p3]
      ∧ p1.plan_id = "pay_in_full" ∧ p1.installments = 1
      ∧ p1.due_dates = [(0 : ℤ) + 30]
      ∧ p2.plan_id = "pay_in_4" ∧ p2.installments = 4
      ∧ p2.due_dates = [(0 : ℤ), 0 + 14, 0 + 28, 0 + 42]
      ∧ p2.amount_per_installment = round2 (10 / 4)
      ∧ p2.total_amount = round2 (10 / 4) * 4
      ∧ p3.plan_id = "pay_in_12" ∧ p3.installments = 12 :=
  bnpl_quote_approved_plans sohoAccountDb "user@example.com" _ 10 0 "ts"
    (by decide) rfl (by norm_num [sohoAccountDb])

/-- The pay-in-12 per-installment amount at a 10-unit principal:
`round(10 * 1.0599 / 12, 2) = 0.88`. -/
lemma round2_pay12_installment_ten :
    round2 (10 * (10599 / 10000) / 12) = 88 / 100 := by
  rw [round2, roundHalfEven_eq_down (k := 88) (by norm_num) (by norm_num)]
  norm_num

/-- The pay-in-12 total at a 10-unit principal:
`round(10 * 1.0599, 2) = 10.60`. -/
lemma round2_pay12_total_ten :
    round2 (10 * (10599 / 10000)) = 1060 / 100 := by
  rw [round2, roundHalfEven_eq_up (k := 1059) (by norm_num) (by norm_num)]
  norm_num

/-- C6 counterexample: at amount 10 against the seeded account, the
pay-in-12 option has per-installment 0.88 and total 10.60, so
`|0.88 * 12 - 10.60| = 0.04` exceeds one cent — the one-cent claim fails
as stated. -/
theorem bnpl_installment_total_counterexample :
    ¬ ∀ p ∈ bnplOptionsOf (handle_get_bnpl_quote sohoAccountDb
        (some "user@example.com") (some 10) 0 "ts"),
      |p.amount_per_installment * (p.installments : ℚ) - p.total_amount|
        ≤ 1 / 100 := by
  intro h
  have he := @bnpl_eval_approved sohoAccountDb "user@example.com"
    (sohoAccountDb.head (by simp [sohoAccountDb])).2 10 0 "ts"
    (by decide) rfl (by norm_num [sohoAccountDb])
  rw [he] at h
  have h3 := h { plan_id := "pay_in_12"
                 name := "12 Month Plan"
                 installments := 12
                 amount_per_installment := round2 (10 * (10599 / 10000) / 12)
                 interest_rate := "5.99%"
                 total_amount := round2 (10 * (10599 / 10000))
                 due_dates :=
                   (List.range 12).map (fun i => (0 : ℤ) + 30 * ((i : ℤ) + 1)) }
    (by simp [bnplOptionsOf, approvedQuote])
  rw [round2_pay12_installment_ten, round2_pay12_total_ten, abs_le] at h3
  norm_num at h3

/-- C6 as amended: every plan option of an approved quote satisfies
`|per_installment * installments - total| ≤ 0.065`; the pay-in-full and
pay-in-4 differences are exactly zero, while the pay-in-12 total is rounded
from the exact principal-with-interest rather than from the rounded
installment, so its difference is only bounded by half a cent per
installment plus half a cent on the total. -/
theorem bnpl_installment_total_bound (db : AccountDb) (e : String)
    (a : Account) (x : ℚ) (d : ℤ) (s : String) (n : e ≠ "")
    (g : get_account db e = some a)
    (l : x ≤ a.credit_profile.available_credit) :
    ∀ p ∈ bnplOptionsOf (handle_get_bnpl_quote db (some e) (some x) d s),
      |p.amount_per_installment * (p.installments : ℚ) - p.total_amount|
        ≤ 65 / 1000 := by
  intro p hp
  rw [bnpl_eval_approved d s n g l] at hp
  simp only [bnplOptionsOf, approvedQuote, List.mem_cons,
    List.not_mem_nil, or_false] at hp
  rcases hp with rfl | rfl | rfl
  · norm_num
  · push_cast
    rw [sub_self, abs_zero]
    norm_num
  · have hA := abs_roundHalfEven_sub_le (100 * (x * (10599 / 10000) / 12))
    have hB := abs_roundHalfEven_sub_le (100 * (x * (10599 / 10000)))
    rw [abs_le] at hA hB
    push_cast
    simp only [round2]
    rw [abs_le]
    constructor <;> linarith [hA.1, hA.2, hB.1, hB.2]

/-- Closed instantiation of the amended installment-total bound: the
pay-in-12 option of a 10-unit request against the seeded account stays
within 0.065. -/
theorem bnpl_installment_total_bound_witness :
    |round2 (10 * (10599 / 10000) / 12) * ((12 : ℕ) : ℚ)
        - round2 (10 * (10599 / 10000))| ≤ 65 / 1000 := by
  have h := bnpl_installment_total_bound sohoAccountDb "user@example.com"
    _ 10 0 "ts" (by decide) rfl (by norm_num [sohoAccountDb])
  exact h { plan_id := "pay_in_12"
            name := "12 Month Plan"
            installments := 12
            amount_per_installment := round2 (10 * (10599 / 10000) / 12)
            interest_rate := "5.99%"
            total_amount := round2 (10 * (10599 / 10000))
            due_dates :=
              (List.range 12).map (fun i => (0 : ℤ) + 30 * ((i : ℤ) + 1)) }
    (by rw [@bnpl_eval_approved sohoAccountDb "user@example.com"
          (sohoAccountDb.head (by simp [sohoAccountDb])).2 10 0 "ts"
          (by decide) rfl (by norm_num [sohoAccountDb])]
        simp [bnplOptionsOf, approvedQuote])

/-- C7: a receipt at or above the 100.00 ceiling makes the handler add the
failed-status error artifact, signal completion once, and issue no external
HTTP call at all. -/
theorem settlement_over_limit (r : PaymentReceiptData) (w : HttpWorld)
    (b : String) (h : 100 ≤ receiptAmount r) :
    handle_payment_receipt (some r) w b =
      .ok { artifacts := [.failed ("Payment amount $"
              ++ toString (receiptAmount r)
              ++ " exceeds $100 limit for mock API")]
            completions := 1
            http_calls := 0 } := by
  simp only [handle_payment_receipt]
  rw [if_pos h]

/-- Closed instantiation of the ceiling theorem at a 150.00 receipt. -/
theorem settlement_over_limit_witness :
    handle_payment_receipt
        (some { amount := some (.dictVal (some 150)) })
        { login := .raised (.connectError "refused")
          pay := .resp 200 "" none none none none none }
        "http://localhost:32775" =
      .ok { artifacts := [.failed ("Payment amount $"
              ++ toString (receiptAmount
                { amount := some (.dictVal (some 150)) })
              ++ " exceeds $100 limit for mock API")]
            completions := 1
            http_calls := 0 } :=
  settlement_over_limit { amount := some (.dictVal (some 150)) }
    { login := .raised (.connectError "refused")
      pay := .resp 200 "" none none none none none }
    "http://localhost:32775" (by norm_num [receiptAmount])

/-- C8: whenever the external settlement interaction fails — a raised
connect, request or other exception on either call, a non-200 login
status, or a pay status outside 200/201 — the handler returns normally
(no raw exception escapes), adds exactly one failed-status error artifact,
and signals completion exactly once. -/
theorem settlement_failure_converted (r : PaymentReceiptData)
    (w : HttpWorld) (b : String) (h : receiptAmount r < 100)
    (f : (∃ e, w.login = .raised e)
      ∨ (∃ s o t, w.login = .resp s o t ∧ s ≠ 200)
      ∨ (∃ a t, w.login = .resp 200 (some a) t ∧
          ((∃ e, w.pay = .raised e)
            ∨ (∃ s2 t2 th ti bn gu af,
                w.pay = .resp s2 t2 th ti bn gu af
                  ∧ s2 ≠ 200 ∧ s2 ≠ 201)))) :
    ∃ m n, handle_payment_receipt (some r) w b =
      .ok { artifacts := [.failed m], completions := 1, http_calls := n } := by
  simp only [handle_payment_receipt]
  rw [if_neg (not_le.2 h)]
  rcases f with ⟨e, hl⟩ | ⟨s, o, t, hl, hs⟩ | ⟨a, t, hl, hp⟩
  · rw [hl]
    cases e <;> exact ⟨_, 1, rfl⟩
  · rw [hl]
    simp only [if_pos hs]
    exact ⟨_, 1, rfl⟩
  · rw [hl]
    simp only [if_neg (show ¬ (200 : ℤ) ≠ 200 by simp)]
    rcases hp with ⟨e, hp⟩ | ⟨s2, t2, th, ti, bn, gu, af, hp, h200, h201⟩
    · rw [hp]
      cases e <;> exact ⟨_, 2, rfl⟩
    · rw [hp]
      simp only [if_pos (And.intro h200 h201)]
      exact ⟨_, 2, rfl⟩

/-- Closed instantiation of the failure-conversion theorem: a 50.00
receipt against an API whose login call raises a connection error. -/
theorem settlement_failure_converted_witness :
    ∃ m n, handle_payment_receipt
        (some { amount := some (.dictVal (some 50)) })
        { login := .raised (.connectError "refused")
          pay := .resp 200 "" none none none none none }
        "http://localhost:32775" =
      .ok { artifacts := [.failed m], completions := 1, http_calls := n } :=
  settlement_failure_converted { amount := some (.dictVal (some 50)) }
    { login := .raised (.connectError "refused")
      pay := .resp 200 "" none none none none none }
    "http://localhost:32775" (by norm_num [receiptAmount])
    (Or.inl ⟨.connectError "refused", rfl⟩)

/-- C10: a settlement request carrying no payment-receipt data part makes
the handler signal completion once with no artifact and no external HTTP
call — silent success, not failure. -/
theorem settlement_missing_receipt (w : HttpWorld) (b : String) :
    handle_payment_receipt none w b =
      .ok { artifacts := [], completions := 1, http_calls := 0 } := rfl

/-- C1: when the credentials provider's artifact list is null, empty, or
holds no structured data payload, the mandate-completion attempt — having
passed or bypassed the challenge — terminates in the failed state with the
literal reason, never in completion. -/
theorem mandate_completion_no_artifacts (m : MandateInfo) (t : Bool)
    (c : Option String) (e : String) (r : Option (List RespArtifact))
    (hs : m.method_name ≠ "CARD" ∨ (t = true ∧ c = some e))
    (hr : r = none ∨ r = some []
      ∨ ∃ l, r = some l ∧ ∀ a ∈ l, ∀ p ∈ a.parts,
          ∀ d, p ≠ RespPart.dataPart d) :
    initiate_payment (some m) t c e r =
      .failed "failed to find the payment method data" := by
  have hg : get_first_data_part r = none := by
    rcases hr with rfl | rfl | ⟨l, rfl, hl⟩
    · rfl
    · rfl
    · simp only [get_first_data_part]
      rw [List.findSome?_eq_none_iff]
      intro p hp
      rw [List.mem_flatten] at hp
      obtain ⟨q, hq, hpq⟩ := hp
      rw [List.mem_map] at hq
      obtain ⟨a, ha, rfl⟩ := hq
      cases p with
      | dataPart d => exact absurd rfl (hl a ha _ hpq d)
      | textPart u => rfl
  have hc : completePayment r =
      .failed "failed to find the payment method data" := by
    rw [completePayment, hg]
  by_cases hm : m.method_name = "CARD"
  · rcases hs with hm' | ⟨ht, hcr⟩
    · exact absurd hm hm'
    · subst ht
      subst hcr
      simp only [initiate_payment, if_pos hm]
      rw [if_neg (by simp)]
      simp only [if_true]
      exact hc
  · simp only [initiate_payment, if_neg hm]
    exact hc

/-- Closed instantiations of the empty-artifact theorem: a token-style
method against a null artifact list, an empty list, and a list whose only
artifact carries no data payload. -/
theorem mandate_completion_no_artifacts_witness :
    initiate_payment (some { method_name := "SOHO_CREDIT" }) false none
        "123" none =
      .failed "failed to find the payment method data"
    ∧ initiate_payment (some { method_name := "SOHO_CREDIT" }) false none
        "123" (some []) =
      .failed "failed to find the payment method data"
    ∧ initiate_payment (some { method_name := "CARD" }) true (some "123")
        "123" (some [{ parts := [.textPart "no data here"] }]) =
      .failed "failed to find the payment method data" := by
  refine ⟨?_, ?_, ?_⟩
  · exact mandate_completion_no_artifacts _ false none "123" none
      (Or.inl (by decide)) (Or.inl rfl)
  · exact mandate_completion_no_artifacts _ false none "123" (some [])
      (Or.inl (by decide)) (Or.inr (Or.inl rfl))
  · exact mandate_completion_no_artifacts _ true (some "123") "123"
      (some [{ parts := [.textPart "no data here"] }])
      (Or.inr ⟨rfl, rfl⟩)
      (Or.inr (Or.inr ⟨_, rfl, by
        intro a ha p hp d
        simp at ha
        subst ha
        simp at hp
        subst hp
        simp⟩))

end AP2

